import Mathlib

/-!
Verification of the credential and session lifecycle subsystem of the
lawcase-bench backend (a law-firm CRM).

The development is a shallow embedding of the TypeScript source:

* `apps/api/src/utils/jwt.ts` — `JwtUtils`, `PasswordUtils`, `TokenUtils`;
* `apps/api/src/utils/twoFactor.ts` — `TwoFactorUtils`;
* `apps/api/src/models/auth.ts` — `UserModel`, `RefreshTokenModel`,
  `TokenBlacklistModel` (persistence, modelled as pure state passing over
  a `Store` record);
* `apps/api/src/services/auth.service.ts` — `AuthService`;
* `apps/api/src/middleware/auth.ts` — `AuthMiddleware.authenticate`.

External collaborators (the `jsonwebtoken` signing library, `bcryptjs`
hashing, the `speakeasy` TOTP library, the Prisma persistence engine and
the SMTP side channel) are modelled by small deterministic functions that
preserve exactly the structure the service code observes: signatures
verify iff the secret matches and the token is not expired, password
comparison succeeds iff the submitted password hashes to the stored hash,
and a TOTP code verifies iff it matches one of the five counters in the
±2-step window.  Wall-clock time is an explicit `now : Nat` argument
(seconds), and the random token generator is an explicit `fresh : String`
argument (the source's `uuidv4()` oracle).
-/

/-! ### Tokens — model of the `jsonwebtoken` library as used by `JwtUtils` -/

/-- `type` discriminator stored in every JWT payload (`types/auth.ts`). -/
inductive TokenType where
  | access
  | refresh
deriving DecidableEq, Repr

/-- `JwtPayload` from `types/auth.ts`: subject (account id), email,
username, role id, issued-at, expiry (seconds since epoch) and the
token-type discriminator. -/
structure JwtPayload where
  sub : String
  email : String
  username : String
  roleId : String
  iat : Nat
  exp : Nat
  type : TokenType
deriving DecidableEq, Repr

/-- The claims the service passes to `JwtUtils.generateAccessToken`
(`Omit<JwtPayload, 'iat' | 'exp' | 'type'>`). -/
structure AccessClaims where
  sub : String
  email : String
  username : String
  roleId : String
deriving DecidableEq, Repr

/-- A JWT string, modelled structurally: a signed token carries its
payload and the secret it was signed with (tamper evidence), anything
else is malformed.  Equality of `Jwt` values models string equality of
the serialized tokens. -/
inductive Jwt where
  | signed (payload : JwtPayload) (secret : String)
  | malformed (raw : String)
deriving DecidableEq, Repr

/-- `jwt.sign(payload, secret)`. -/
def jwtSign (payload : JwtPayload) (secret : String) : Jwt :=
  .signed payload secret

/-- `jwt.verify(token, secret)` at clock `now`: succeeds iff the token
was signed with `secret` and its `exp` has not yet passed (jsonwebtoken
rejects a token with `exp <= now`). -/
def jwtVerify (token : Jwt) (secret : String) (now : Nat) : Option JwtPayload :=
  match token with
  | .signed payload s => if s = secret ∧ now < payload.exp then some payload else none
  | .malformed _ => none

/-- `jwt.decode(token)`: reads the payload without checking the
signature or expiry; `null` on malformed input. -/
def jwtDecode (token : Jwt) : Option JwtPayload :=
  match token with
  | .signed payload _ => some payload
  | .malformed _ => none

/-! ### `JwtUtils` (`utils/jwt.ts`) -/

/-- Default access-token signing secret from `utils/jwt.ts`. -/
def JwtUtils.accessTokenSecret : String := "your-access-secret"

/-- Default refresh-token signing secret from `utils/jwt.ts`. -/
def JwtUtils.refreshTokenSecret : String := "your-refresh-secret"

/-- `JwtUtils.generateAccessToken`: stamps `type = 'access'`,
`iat = now`, `exp = now + 15 * 60` and signs with the access secret. -/
def JwtUtils.generateAccessToken (payload : AccessClaims) (now : Nat) : Jwt :=
  jwtSign
    { sub := payload.sub
      email := payload.email
      username := payload.username
      roleId := payload.roleId
      iat := now
      exp := now + 15 * 60
      type := .access }
    JwtUtils.accessTokenSecret

/-- `JwtUtils.verifyAccessToken`: verifies against the access secret,
rethrowing every failure as `'Invalid access token'`. -/
def JwtUtils.verifyAccessToken (token : Jwt) (now : Nat) : Except String JwtPayload :=
  match jwtVerify token JwtUtils.accessTokenSecret now with
  | some payload => .ok payload
  | none => .error "Invalid access token"

/-- `JwtUtils.decodeToken`: unverified decode, `null` on failure. -/
def JwtUtils.decodeToken (token : Jwt) : Option JwtPayload :=
  jwtDecode token

/-! ### `PasswordUtils` (`utils/jwt.ts`) -/

/-- Model of `bcrypt.hash`: an injective tagging of the password.  The
service only ever observes hashes through `comparePassword`. -/
def PasswordUtils.hashPassword (password : String) : String :=
  "bcrypt:" ++ password

/-- Model of `bcrypt.compare`: succeeds iff the submitted password
hashes to the stored hash. -/
def PasswordUtils.comparePassword (password hashed : String) : Bool :=
  PasswordUtils.hashPassword password == hashed

/-- The regex `/[a-z]/.test(password)`. -/
def RegexTest.lowercase (password : String) : Bool :=
  password.data.any fun c => decide (97 ≤ c.toNat) && decide (c.toNat ≤ 122)

/-- The regex `/[A-Z]/.test(password)`. -/
def RegexTest.uppercase (password : String) : Bool :=
  password.data.any fun c => decide (65 ≤ c.toNat) && decide (c.toNat ≤ 90)

/-- The regex `/[0-9]/.test(password)`. -/
def RegexTest.digit (password : String) : Bool :=
  password.data.any fun c => decide (48 ≤ c.toNat) && decide (c.toNat ≤ 57)

/-- The character class of the special-character regex in
`PasswordUtils.validatePassword`. -/
def RegexTest.specialChars : List Char :=
  ['!', '@', '#', '$', '%', '^', '&', '*', '(', ')', ',', '.', '?', '\"', ':',
   '\x7b', '\x7d', '|', '<', '>']

/-- The special-character regex `.test(password)`. -/
def RegexTest.special (password : String) : Bool :=
  password.data.any fun c => RegexTest.specialChars.contains c

/-- The `{ isValid, errors }` object returned by
`PasswordUtils.validatePassword`. -/
structure PasswordValidation where
  isValid : Bool
  errors : List String
deriving DecidableEq, Repr

/-- `PasswordUtils.validatePassword`: accumulates one error message per
violated rule, in source order; valid iff no errors. -/
def PasswordUtils.validatePassword (password : String) : PasswordValidation :=
  let errors : List String := []
  let errors := if password.length < 8 then
    errors ++ ["Password must be at least 8 characters long"] else errors
  let errors := if 128 < password.length then
    errors ++ ["Password must be less than 128 characters long"] else errors
  let errors := if !RegexTest.lowercase password then
    errors ++ ["Password must contain at least one lowercase letter"] else errors
  let errors := if !RegexTest.uppercase password then
    errors ++ ["Password must contain at least one uppercase letter"] else errors
  let errors := if !RegexTest.digit password then
    errors ++ ["Password must contain at least one number"] else errors
  let errors := if !RegexTest.special password then
    errors ++ ["Password must contain at least one special character"] else errors
  { isValid := errors.isEmpty, errors := errors }

/-! ### `TwoFactorUtils` (`utils/twoFactor.ts`) -/

/-- Model of the external `speakeasy` TOTP code for a secret at a
30-second counter: deterministic and distinct for distinct inputs. -/
def totp (secret : String) (counter : Nat) : String :=
  "TOTP(" ++ secret ++ "," ++ toString counter ++ ")"

/-- `TwoFactorUtils.verifyToken`: `speakeasy.totp.verify` with
`window: 2` — the submitted code must match one of the five counters
`now / 30 - 2 .. now / 30 + 2`. -/
def TwoFactorUtils.verifyToken (secret token : String) (now : Nat) : Bool :=
  (List.range 5).any fun i => totp secret (now / 30 + i - 2) == token

/-- `TwoFactorUtils.validateBackupCode`: pure membership test — it does
not remove the code from the list. -/
def TwoFactorUtils.validateBackupCode (backupCodes : List String) (code : String) : Bool :=
  backupCodes.contains code

/-- `TwoFactorUtils.removeUsedBackupCode`: returns the list without the
used code.  No operation of the session core calls it. -/
def TwoFactorUtils.removeUsedBackupCode (backupCodes : List String) (code : String) : List String :=
  backupCodes.filter fun bc => !(bc == code)

/-! ### Data model (`types/auth.ts`, persisted by `models/auth.ts`)

Database-generated bookkeeping (`id` for refresh-token and blacklist
rows, `createdAt`/`updatedAt` timestamps) is omitted: it is supplied by
Prisma, never read by the session core, and no claim mentions it. -/

/-- `User` from `types/auth.ts`.  The `role` join is loaded on demand by
the model layer and only consulted by the authorization predicates, so
the account record keeps the `roleId` foreign key. -/
structure User where
  id : String
  email : String
  username : String
  password : String
  firstName : String
  lastName : String
  isActive : Bool
  isVerified : Bool
  twoFactorEnabled : Bool
  twoFactorSecret : Option String
  backupCodes : List String
  lastLoginAt : Option Nat
  roleId : String
deriving DecidableEq, Repr

/-- `RefreshToken` from `types/auth.ts`: opaque token value, owning
account, expiry and revoked flag. -/
structure RefreshToken where
  token : String
  userId : String
  expiresAt : Nat
  isRevoked : Bool
deriving DecidableEq, Repr

/-- `TokenBlacklist` from `types/auth.ts`.  `AuthService.logout` builds
the row without a `userId`, so the field is optional here (the JS call
site passes `undefined`). -/
structure TokenBlacklist where
  token : Jwt
  userId : Option String
  expiresAt : Nat
  reason : String
deriving DecidableEq, Repr

/-- The shared persistent store (Prisma tables consulted by the session
core). -/
structure Store where
  users : List User
  refreshTokens : List RefreshToken
  blacklist : List TokenBlacklist
deriving DecidableEq, Repr

/-! ### `UserModel` (`models/auth.ts`) -/

/-- `prisma.user.findUnique({ where: { id } })`. -/
def UserModel.findById (s : Store) (id : String) : Option User :=
  s.users.find? fun u => u.id == id

/-- `prisma.user.findUnique({ where: { email } })`. -/
def UserModel.findByEmail (s : Store) (email : String) : Option User :=
  s.users.find? fun u => u.email == email

/-- `prisma.user.findUnique({ where: { username } })`. -/
def UserModel.findByUsername (s : Store) (username : String) : Option User :=
  s.users.find? fun u => u.username == username

/-- A `Partial<User>` argument to `UserModel.update`; `none` marks a
field the caller left undefined.  `twoFactorSecret` and `lastLoginAt`
are nullable, hence doubly optional. -/
structure UserPatch where
  email : Option String := none
  username : Option String := none
  password : Option String := none
  firstName : Option String := none
  lastName : Option String := none
  isActive : Option Bool := none
  isVerified : Option Bool := none
  lastLoginAt : Option (Option Nat) := none
  roleId : Option String := none
  twoFactorEnabled : Option Bool := none
  twoFactorSecret : Option (Option String) := none
  backupCodes : Option (List String) := none
deriving Repr

/-- The field whitelist of `UserModel.update` (`models/auth.ts`): the
`updateData` object copies only `email`, `username`, `password`,
`firstName`, `lastName`, `isActive`, `isVerified`, `lastLoginAt` and
`roleId`.  `twoFactorEnabled`, `twoFactorSecret` and `backupCodes` are
not copied, so those parts of the patch are silently dropped. -/
def UserModel.applyUpdate (u : User) (data : UserPatch) : User :=
  { u with
    email := data.email.getD u.email
    username := data.username.getD u.username
    password := data.password.getD u.password
    firstName := data.firstName.getD u.firstName
    lastName := data.lastName.getD u.lastName
    isActive := data.isActive.getD u.isActive
    isVerified := data.isVerified.getD u.isVerified
    lastLoginAt := data.lastLoginAt.getD u.lastLoginAt
    roleId := data.roleId.getD u.roleId }

/-- `UserModel.update`: `prisma.user.update({ where: { id }, data })`
with the whitelisted `updateData`. -/
def UserModel.update (s : Store) (id : String) (data : UserPatch) : Store :=
  { s with users := s.users.map fun u =>
      if u.id == id then UserModel.applyUpdate u data else u }

/-- `UserModel.updateLastLogin`: sets `lastLoginAt` to the current
time. -/
def UserModel.updateLastLogin (s : Store) (id : String) (now : Nat) : Store :=
  { s with users := s.users.map fun u =>
      if u.id == id then { u with lastLoginAt := some now } else u }

/-! ### `RefreshTokenModel` (`models/auth.ts`) -/

/-- `prisma.refreshToken.create`. -/
def RefreshTokenModel.create (s : Store) (rt : RefreshToken) : Store :=
  { s with refreshTokens := s.refreshTokens ++ [rt] }

/-- `prisma.refreshToken.findUnique({ where: { token } })`. -/
def RefreshTokenModel.findByToken (s : Store) (token : String) : Option RefreshToken :=
  s.refreshTokens.find? fun rt => rt.token == token

/-- `RefreshTokenModel.revokeToken`: sets `isRevoked` on the row keyed
by the token value. -/
def RefreshTokenModel.revokeToken (s : Store) (token : String) : Store :=
  { s with refreshTokens := s.refreshTokens.map fun rt =>
      if rt.token == token then { rt with isRevoked := true } else rt }

/-! ### `TokenBlacklistModel` (`models/auth.ts`) -/

/-- `prisma.tokenBlacklist.create`. -/
def TokenBlacklistModel.create (s : Store) (entry : TokenBlacklist) : Store :=
  { s with blacklist := s.blacklist ++ [entry] }

/-- `TokenBlacklistModel.isBlacklisted`: an entry for this exact token
with `expiresAt > now` exists — entries past their expiry are logically
absent even before physical cleanup. -/
def TokenBlacklistModel.isBlacklisted (s : Store) (token : Jwt) (now : Nat) : Bool :=
  s.blacklist.any fun b => b.token == token && decide (now < b.expiresAt)

/-! ### `AuthService` (`services/auth.service.ts`) -/

/-- The error messages `AuthService` throws, as an enumeration; each
constructor corresponds to one thrown `Error` string (see
`AuthError.message`). -/
inductive AuthError where
  | invalidEmailOrPassword
  | accountDisabled
  | twoFactorRequired
  | twoFactorNotProperlySetUp
  | twoFactorInvalid
  | invalidRefreshToken
  | refreshTokenExpired
  | userNotFoundOrInactive
  | userNotFound
  | invalidPassword
  | twoFactorNotSetUp
  | resetMasked
deriving DecidableEq, Repr

/-- The source `Error` message of each service failure. -/
def AuthError.message : AuthError → String
  | .invalidEmailOrPassword => "Invalid email or password"
  | .accountDisabled => "Account is disabled"
  | .twoFactorRequired => "Two-factor authentication code required"
  | .twoFactorNotProperlySetUp => "Two-factor authentication not properly set up"
  | .twoFactorInvalid => "Invalid two-factor authentication code"
  | .invalidRefreshToken => "Invalid refresh token"
  | .refreshTokenExpired => "Refresh token expired"
  | .userNotFoundOrInactive => "User not found or inactive"
  | .userNotFound => "User not found"
  | .invalidPassword => "Invalid password"
  | .twoFactorNotSetUp => "Two-factor authentication not set up"
  | .resetMasked => "If this email exists, a reset link will be sent"

/-- `LoginRequest` from `types/auth.ts`. -/
structure LoginRequest where
  email : String
  password : String
  twoFactorCode : Option String
deriving DecidableEq, Repr

/-- The sanitized account view returned by auth responses: the `User`
record minus `password` and `twoFactorSecret` (the source strips exactly
those two fields by destructuring). -/
structure SafeUser where
  id : String
  email : String
  username : String
  firstName : String
  lastName : String
  isActive : Bool
  isVerified : Bool
  twoFactorEnabled : Bool
  backupCodes : List String
  lastLoginAt : Option Nat
  roleId : String
deriving DecidableEq, Repr

/-- Strip `password` and `twoFactorSecret` from a user record. -/
def User.sanitize (u : User) : SafeUser :=
  { id := u.id
    email := u.email
    username := u.username
    firstName := u.firstName
    lastName := u.lastName
    isActive := u.isActive
    isVerified := u.isVerified
    twoFactorEnabled := u.twoFactorEnabled
    backupCodes := u.backupCodes
    lastLoginAt := u.lastLoginAt
    roleId := u.roleId }

/-- `AuthResponse` from `types/auth.ts`. -/
structure AuthResponse where
  user : SafeUser
  accessToken : Jwt
  refreshToken : String
  expiresIn : Nat
  tokenType : String
deriving DecidableEq, Repr

/-- Seconds in the 7-day refresh-token lifetime. -/
def sevenDays : Nat := 7 * 24 * 60 * 60

/-- The successful tail of `AuthService.login` (source lines 143-173):
mint the access token, persist a fresh refresh token valid 7 days,
update `lastLoginAt` and return the sanitized response. -/
def AuthService.issueLoginTokens (s : Store) (user : User) (now : Nat) (fresh : String) :
    Except AuthError AuthResponse × Store :=
  let accessToken := JwtUtils.generateAccessToken
    { sub := user.id, email := user.email, username := user.username, roleId := user.roleId } now
  let s := RefreshTokenModel.create s
    { token := fresh, userId := user.id, expiresAt := now + sevenDays, isRevoked := false }
  let s := UserModel.updateLastLogin s user.id now
  (.ok { user := user.sanitize, accessToken := accessToken, refreshToken := fresh,
         expiresIn := 15 * 60, tokenType := "Bearer" }, s)

/-- `AuthService.login`: email lookup, active check, password check,
then the mandatory two-factor gate when enabled, then token issuance.
Every failure is thrown before any store mutation, so the store is
returned unchanged on error. -/
def AuthService.login (s : Store) (data : LoginRequest) (now : Nat) (fresh : String) :
    Except AuthError AuthResponse × Store :=
  match UserModel.findByEmail s data.email with
  | none => (.error .invalidEmailOrPassword, s)
  | some user =>
    if user.isActive = false then (.error .accountDisabled, s)
    else if PasswordUtils.comparePassword data.password user.password = false then
      (.error .invalidEmailOrPassword, s)
    else if user.twoFactorEnabled then
      match data.twoFactorCode with
      | none => (.error .twoFactorRequired, s)
      | some code =>
        match user.twoFactorSecret with
        | none => (.error .twoFactorNotProperlySetUp, s)
        | some secret =>
          if TwoFactorUtils.verifyToken secret code now = false then
            (.error .twoFactorInvalid, s)
          else AuthService.issueLoginTokens s user now fresh
    else AuthService.issueLoginTokens s user now fresh

/-- `AuthService.refreshToken`: look up the presented token; reject if
absent or revoked, reject if expired, reject if the owner is missing or
inactive; otherwise mint a new access token, revoke the presented
refresh token and persist a brand-new one in the same operation. -/
def AuthService.refreshToken (s : Store) (tokenValue : String) (now : Nat) (fresh : String) :
    Except AuthError AuthResponse × Store :=
  match RefreshTokenModel.findByToken s tokenValue with
  | none => (.error .invalidRefreshToken, s)
  | some rt =>
    if rt.isRevoked then (.error .invalidRefreshToken, s)
    else if rt.expiresAt < now then (.error .refreshTokenExpired, s)
    else match UserModel.findById s rt.userId with
    | none => (.error .userNotFoundOrInactive, s)
    | some user =>
      if user.isActive = false then (.error .userNotFoundOrInactive, s)
      else
        (.ok { user := user.sanitize,
               accessToken := JwtUtils.generateAccessToken
                 { sub := user.id, email := user.email, username := user.username,
                   roleId := user.roleId } now,
               refreshToken := fresh, expiresIn := 15 * 60, tokenType := "Bearer" },
         RefreshTokenModel.create (RefreshTokenModel.revokeToken s tokenValue)
           { token := fresh, userId := user.id, expiresAt := now + sevenDays,
             isRevoked := false })

/-- `AuthService.logout`: best-effort — blacklist the access token until
its own embedded expiry (skipped when the token does not decode), then
revoke the refresh token; both sub-steps are wrapped in try/catch and
the operation always reports success. -/
def AuthService.logout (s : Store) (accessToken : Jwt) (refreshTokenValue : String) : Store :=
  let s := match JwtUtils.decodeToken accessToken with
    | some decoded => TokenBlacklistModel.create s
        { token := accessToken, userId := none, expiresAt := decoded.exp, reason := "logout" }
    | none => s
  RefreshTokenModel.revokeToken s refreshTokenValue

/-- `AuthService.enableTwoFactor`: re-verify the password, require a
stored pending secret, verify the submitted code, then flip the enabled
flag through `UserModel.update`. -/
def AuthService.enableTwoFactor (s : Store) (userId password twoFactorCode : String) (now : Nat) :
    Except AuthError Unit × Store :=
  match UserModel.findById s userId with
  | none => (.error .userNotFound, s)
  | some user =>
    if PasswordUtils.comparePassword password user.password = false then
      (.error .invalidPassword, s)
    else match user.twoFactorSecret with
    | none => (.error .twoFactorNotSetUp, s)
    | some secret =>
      if TwoFactorUtils.verifyToken secret twoFactorCode now = false then
        (.error .twoFactorInvalid, s)
      else (.ok (), UserModel.update s userId { twoFactorEnabled := some true })

/-- `AuthService.disableTwoFactor`: re-verify the password, then ask
`UserModel.update` to clear the flag, the secret and the backup
codes. -/
def AuthService.disableTwoFactor (s : Store) (userId password : String) :
    Except AuthError Unit × Store :=
  match UserModel.findById s userId with
  | none => (.error .userNotFound, s)
  | some user =>
    if PasswordUtils.comparePassword password user.password = false then
      (.error .invalidPassword, s)
    else (.ok (), UserModel.update s userId
      { twoFactorEnabled := some false, twoFactorSecret := some none, backupCodes := some [] })

/-- `AuthService.requestPasswordReset`: looks the account up by email
and throws `'If this email exists, a reset link will be sent'` when it
does not exist; when it does, a reset token is generated and the reset
email sent (external side channel, no store mutation). -/
def AuthService.requestPasswordReset (s : Store) (email : String) : Except AuthError Unit :=
  match UserModel.findByEmail s email with
  | none => .error .resetMasked
  | some _ => .ok ()

/-! ### `AuthMiddleware.authenticate` (`middleware/auth.ts`) -/

/-- The distinct 401 responses of the authentication gate. -/
inductive AuthFailure where
  | tokenRequired
  | tokenRevoked
  | invalidTokenType
  | userNotFoundOrInactive
  | invalidOrExpired
deriving DecidableEq, Repr

/-- The response body of each gate failure. -/
def AuthFailure.message : AuthFailure → String
  | .tokenRequired => "Authorization token required"
  | .tokenRevoked => "Token has been revoked"
  | .invalidTokenType => "Invalid token type"
  | .userNotFoundOrInactive => "User not found or inactive"
  | .invalidOrExpired => "Invalid or expired token"

/-- The identity the gate attaches to the request on success. -/
structure Identity where
  id : String
  email : String
  username : String
  roleId : String
deriving DecidableEq, Repr

/-- `AuthMiddleware.authenticate`, in source order: bearer-header check,
then the blacklist lookup, then `JwtUtils.verifyAccessToken` (whose
throw the surrounding try/catch turns into the generic
`'Invalid or expired token'` 401), then the token-type check, then the
account lookup and active check. -/
def AuthMiddleware.authenticate (s : Store) (bearer : Option Jwt) (now : Nat) :
    Except AuthFailure Identity :=
  match bearer with
  | none => .error .tokenRequired
  | some token =>
    if TokenBlacklistModel.isBlacklisted s token now then .error .tokenRevoked
    else match JwtUtils.verifyAccessToken token now with
    | .error _ => .error .invalidOrExpired
    | .ok decoded =>
      if decoded.type ≠ TokenType.access then .error .invalidTokenType
      else match UserModel.findById s decoded.sub with
      | none => .error .userNotFoundOrInactive
      | some user =>
        if user.isActive = false then .error .userNotFoundOrInactive
        else .ok { id := user.id, email := user.email, username := user.username,
                   roleId := user.roleId }

/-! ### Theorems -/

/-- C3: for all valid claims payloads `C`,
`verifyAccessToken(issueAccessToken(C))` succeeds and returns claims
equal to `C` together with `type = access`, `iat` equal to the issuance
time and `exp` fifteen minutes later, as long as the 15-minute lifetime
has not elapsed; once it has elapsed the same token fails
verification. -/
theorem accessToken_roundtrip_and_expiry :
    ∀ (c : AccessClaims) (t tv : Nat),
      (tv < t + 15 * 60 →
        JwtUtils.verifyAccessToken (JwtUtils.generateAccessToken c t) tv =
          .ok { sub := c.sub, email := c.email, username := c.username, roleId := c.roleId,
                iat := t, exp := t + 15 * 60, type := .access }) ∧
      (t + 15 * 60 ≤ tv →
        JwtUtils.verifyAccessToken (JwtUtils.generateAccessToken c t) tv =
          .error "Invalid access token") := by
  intro c t tv
  constructor
  · intro h
    simp [JwtUtils.verifyAccessToken, JwtUtils.generateAccessToken, jwtSign, jwtVerify, h]
  · intro h
    simp [JwtUtils.verifyAccessToken, JwtUtils.generateAccessToken, jwtSign, jwtVerify,
      Nat.not_lt.mpr h]

/-- Witness for `accessToken_roundtrip_and_expiry` at concrete claims,
issuance time 0, verification times 10 (inside the lifetime) and 900
(lifetime elapsed). -/
theorem accessToken_roundtrip_and_expiry_witness :
    JwtUtils.verifyAccessToken (JwtUtils.generateAccessToken ⟨"u1", "e@x", "alice", "r1"⟩ 0) 10 =
      .ok ⟨"u1", "e@x", "alice", "r1", 0, 900, .access⟩ ∧
    JwtUtils.verifyAccessToken (JwtUtils.generateAccessToken ⟨"u1", "e@x", "alice", "r1"⟩ 0) 900 =
      .error "Invalid access token" :=
  ⟨(accessToken_roundtrip_and_expiry ⟨"u1", "e@x", "alice", "r1"⟩ 0 10).1 (by decide),
   (accessToken_roundtrip_and_expiry ⟨"u1", "e@x", "alice", "r1"⟩ 0 900).2 (by decide)⟩

/-- C9: `validatePassword` accepts exactly the passwords of length 8 to
128 that contain at least one lowercase letter, one uppercase letter,
one digit and one character of the special class; in particular
`"Short1!"` fails (7 characters), `"TestPassword123!"` passes,
`"alllowercase123!"` fails (no uppercase) and `"NoSpecialChars123"`
fails (no special character). -/
theorem validatePassword_characterization :
    (∀ p : String,
      (PasswordUtils.validatePassword p).isValid = true ↔
        (8 ≤ p.length ∧ p.length ≤ 128 ∧ RegexTest.lowercase p = true ∧
         RegexTest.uppercase p = true ∧ RegexTest.digit p = true ∧
         RegexTest.special p = true)) ∧
    (PasswordUtils.validatePassword "Short1!").isValid = false ∧
    (PasswordUtils.validatePassword "TestPassword123!").isValid = true ∧
    (PasswordUtils.validatePassword "alllowercase123!").isValid = false ∧
    (PasswordUtils.validatePassword "NoSpecialChars123").isValid = false := by
  refine ⟨?_, by decide, by decide, by decide, by decide⟩
  intro p
  unfold PasswordUtils.validatePassword
  by_cases h1 : p.length < 8 <;>
    by_cases h2 : 128 < p.length <;>
      by_cases h3 : RegexTest.lowercase p = true <;>
        by_cases h4 : RegexTest.uppercase p = true <;>
          by_cases h5 : RegexTest.digit p = true <;>
            by_cases h6 : RegexTest.special p = true <;>
              (simp [h1, h2, h3, h4, h5, h6]; try omega)

/-- Decidable equality for `Except` results, so concrete runs of the
service operations can be checked by evaluation. -/
instance {ε α : Type} [DecidableEq ε] [DecidableEq α] : DecidableEq (Except ε α) := fun a b =>
  match a, b with
  | .ok x, .ok y =>
    if h : x = y then isTrue (by rw [h]) else isFalse (by intro hc; cases hc; exact h rfl)
  | .ok _, .error _ => isFalse (by intro hc; cases hc)
  | .error _, .ok _ => isFalse (by intro hc; cases hc)
  | .error x, .error y =>
    if h : x = y then isTrue (by rw [h]) else isFalse (by intro hc; cases hc; exact h rfl)

/-! ### Fixtures for witnesses and counterexamples -/

/-- Fixture: an active account without two-factor. -/
def plainUser : User :=
  { id := "u6", email := "a@x.com", username := "alice",
    password := PasswordUtils.hashPassword "Pw6", firstName := "A", lastName := "L",
    isActive := true, isVerified := true, twoFactorEnabled := false,
    twoFactorSecret := none, backupCodes := [], lastLoginAt := none, roleId := "r1" }

/-- Fixture: a store holding only `plainUser`. -/
def plainStore : Store := { users := [plainUser], refreshTokens := [], blacklist := [] }

/-- Fixture: a disabled account. -/
def inactiveUser : User :=
  { id := "u10", email := "dis@x.com", username := "dis",
    password := PasswordUtils.hashPassword "Pw10", firstName := "D", lastName := "I",
    isActive := false, isVerified := true, twoFactorEnabled := false,
    twoFactorSecret := none, backupCodes := [], lastLoginAt := none, roleId := "r1" }

/-- Fixture: a store holding only `inactiveUser`. -/
def inactiveStore : Store := { users := [inactiveUser], refreshTokens := [], blacklist := [] }

/-- Fixture: an account with two-factor enabled, a stored secret and one
backup code. -/
def twoFaUser : User :=
  { id := "u5", email := "b@x.com", username := "bob",
    password := PasswordUtils.hashPassword "Pw5", firstName := "B", lastName := "O",
    isActive := true, isVerified := true, twoFactorEnabled := true,
    twoFactorSecret := some "SEC", backupCodes := ["ABCD1234"], lastLoginAt := none,
    roleId := "r1" }

/-- Fixture: a store holding only `twoFaUser`. -/
def twoFaStore : Store := { users := [twoFaUser], refreshTokens := [], blacklist := [] }

/-- Fixture: an account in the Setup-Pending two-factor state (secret
stored, flag not yet flipped). -/
def pendingUser : User :=
  { id := "u7", email := "c@x.com", username := "carol",
    password := PasswordUtils.hashPassword "Pw7", firstName := "C", lastName := "P",
    isActive := true, isVerified := true, twoFactorEnabled := false,
    twoFactorSecret := some "SEC2", backupCodes := [], lastLoginAt := none, roleId := "r1" }

/-- Fixture: a store holding only `pendingUser`. -/
def pendingStore : Store := { users := [pendingUser], refreshTokens := [], blacklist := [] }

/-- C10 (implicit): in `login` the account-active check runs before
password verification, so an inactive account always fails with the
distinct `'Account is disabled'` error, for any submitted password and
any two-factor code — the password is never compared (the result does
not depend on it), which reveals the account's existence and disabled
status. -/
theorem login_inactive_fails_before_password :
    ∀ (s : Store) (email pw : String) (code : Option String) (now : Nat) (fresh : String)
      (u : User),
      UserModel.findByEmail s email = some u → u.isActive = false →
      AuthService.login s ⟨email, pw, code⟩ now fresh = (.error .accountDisabled, s) := by
  intro s email pw code now fresh u hfind hinact
  simp [AuthService.login, hfind, hinact]

/-- Witness for `login_inactive_fails_before_password` on
`inactiveStore`, with a password that is in fact the correct one. -/
theorem login_inactive_fails_before_password_witness :
    AuthService.login inactiveStore ⟨"dis@x.com", "Pw10", none⟩ 0 "f" =
      (.error .accountDisabled, inactiveStore) :=
  login_inactive_fails_before_password inactiveStore "dis@x.com" "Pw10" none 0 "f"
    inactiveUser (by decide) (by decide)

/-- C5: for an account with two-factor enabled and a correct password,
`login` without a code fails with the `TwoFactorRequired` error and
`login` with an incorrect code fails with the `TwoFactorInvalid` error;
in both failure cases the store is returned unchanged, so no access
token is issued and no refresh-token record is created. -/
theorem login_twofactor_gate :
    ∀ (s : Store) (email pw : String) (code : Option String) (now : Nat) (fresh : String)
      (u : User),
      UserModel.findByEmail s email = some u →
      u.isActive = true →
      PasswordUtils.comparePassword pw u.password = true →
      u.twoFactorEnabled = true →
      ((code = none →
          AuthService.login s ⟨email, pw, code⟩ now fresh = (.error .twoFactorRequired, s)) ∧
       (∀ c secret, code = some c → u.twoFactorSecret = some secret →
          TwoFactorUtils.verifyToken secret c now = false →
          AuthService.login s ⟨email, pw, code⟩ now fresh = (.error .twoFactorInvalid, s))) := by
  intro s email pw code now fresh u hfind hact hpw h2fa
  constructor
  · intro hc
    subst hc
    simp [AuthService.login, hfind, hact, hpw, h2fa]
  · intro c secret hc hsec hver
    subst hc
    simp [AuthService.login, hfind, hact, hpw, h2fa, hsec, hver]

/-- Witness for `login_twofactor_gate` on `twoFaStore` with the correct
password, once with no code and once with the wrong code `"000000"`. -/
theorem login_twofactor_gate_witness :
    AuthService.login twoFaStore ⟨"b@x.com", "Pw5", none⟩ 60 "f" =
      (.error .twoFactorRequired, twoFaStore) ∧
    AuthService.login twoFaStore ⟨"b@x.com", "Pw5", some "000000"⟩ 60 "f" =
      (.error .twoFactorInvalid, twoFaStore) :=
  ⟨(login_twofactor_gate twoFaStore "b@x.com" "Pw5" none 60 "f" twoFaUser
      (by decide) (by decide) (by decide) (by decide)).1 rfl,
   (login_twofactor_gate twoFaStore "b@x.com" "Pw5" (some "000000") 60 "f" twoFaUser
      (by decide) (by decide) (by decide) (by decide)).2 "000000" "SEC" rfl (by decide)
      (by decide)⟩

/-- C8 (code bug): `validateBackupCode` accepts a stored backup code by
pure membership and does not remove it — it cannot, being a pure
predicate, and no session-core operation calls `removeUsedBackupCode`
(`login`'s second-factor check only runs the TOTP verifier, so a backup
code submitted at login is rejected outright and the stored list is
untouched).  At the concrete input: the code `"ABCD1234"` is accepted by
`validateBackupCode`, the list that a consuming operation should have
persisted would be `[]`, yet `login` rejects the code and leaves the
account's list still containing `"ABCD1234"`, so a second use is
accepted by `validateBackupCode` again. -/
theorem backupCode_accepted_but_never_consumed :
    TwoFactorUtils.validateBackupCode ["ABCD1234"] "ABCD1234" = true ∧
    TwoFactorUtils.removeUsedBackupCode ["ABCD1234"] "ABCD1234" = [] ∧
    AuthService.login twoFaStore ⟨"b@x.com", "Pw5", some "ABCD1234"⟩ 60 "f" =
      (.error .twoFactorInvalid, twoFaStore) ∧
    (UserModel.findById twoFaStore "u5").map (fun u => u.backupCodes) = some ["ABCD1234"] ∧
    TwoFactorUtils.validateBackupCode
      ((UserModel.findById twoFaStore "u5").elim [] (fun u => u.backupCodes)) "ABCD1234" =
      true := by decide

/-- C6 (code bug): `login` fails with the same generic
`'Invalid email or password'` message for an unknown email and for a
known email with a wrong password, but the password reset-request
operation has caller-observably different shapes: it succeeds (HTTP 200)
for a registered email and throws (HTTP 400, `success: false`) for an
unregistered one — the thrown message is itself the masking sentence
`'If this email exists, a reset link will be sent'`, so the code
contradicts its own masking intent and reveals whether the email
exists. -/
theorem resetRequest_shape_reveals_email_existence :
    (AuthService.login plainStore ⟨"ghost@x.com", "AnyPw", none⟩ 0 "f").fst =
      .error .invalidEmailOrPassword ∧
    (AuthService.login plainStore ⟨"a@x.com", "WrongPw", none⟩ 0 "f").fst =
      .error .invalidEmailOrPassword ∧
    AuthService.requestPasswordReset plainStore "a@x.com" = .ok () ∧
    AuthService.requestPasswordReset plainStore "ghost@x.com" = .error .resetMasked ∧
    AuthError.resetMasked.message = "If this email exists, a reset link will be sent" := by
  decide

/-- C7 (code bug): `UserModel.update`'s field whitelist silently drops
`twoFactorEnabled`, `twoFactorSecret` and `backupCodes`, so
`disableTwoFactor` (after password re-verification) reports success
while leaving the flag set, the secret stored and the backup codes in
place, and `enableTwoFactor` (with a correct password and a correct TOTP
code against the stored pending secret) reports success while leaving
the flag cleared.  At the concrete inputs both operations return the
store completely unchanged. -/
theorem twoFactor_updates_silently_dropped :
    AuthService.disableTwoFactor twoFaStore "u5" "Pw5" = (.ok (), twoFaStore) ∧
    (UserModel.findById (AuthService.disableTwoFactor twoFaStore "u5" "Pw5").snd "u5").map
      (fun u => (u.twoFactorEnabled, u.twoFactorSecret, u.backupCodes)) =
      some (true, some "SEC", ["ABCD1234"]) ∧
    AuthService.enableTwoFactor pendingStore "u7" "Pw7" (totp "SEC2" 2) 60 =
      (.ok (), pendingStore) ∧
    (UserModel.findById (AuthService.enableTwoFactor pendingStore "u7" "Pw7"
        (totp "SEC2" 2) 60).snd "u7").map (fun u => u.twoFactorEnabled) = some false := by
  decide

/-- C4: blacklisting an access token via `logout` stores an entry whose
expiry equals the token's own embedded `exp`; immediately after the call
(while the token is still within its lifetime) `isBlacklisted` is true,
and once the token's own expiry has passed `isBlacklisted` is false even
though the entry is still physically stored (no cleanup has run).  The
token is assumed not already blacklisted before the call. -/
theorem logout_blacklist_until_embedded_expiry :
    ∀ (s : Store) (p : JwtPayload) (secret rtv : String) (now later : Nat),
      (∀ b ∈ s.blacklist, b.token ≠ Jwt.signed p secret) →
      ((AuthService.logout s (Jwt.signed p secret) rtv).blacklist =
        s.blacklist ++ [{ token := Jwt.signed p secret, userId := none,
                          expiresAt := p.exp, reason := "logout" }] ∧
       (now < p.exp →
         TokenBlacklistModel.isBlacklisted (AuthService.logout s (Jwt.signed p secret) rtv)
           (Jwt.signed p secret) now = true) ∧
       (p.exp ≤ later →
         TokenBlacklistModel.isBlacklisted (AuthService.logout s (Jwt.signed p secret) rtv)
           (Jwt.signed p secret) later = false)) := by
  intro s p secret rtv now later hfresh
  refine ⟨?_, ?_, ?_⟩
  · simp [AuthService.logout, JwtUtils.decodeToken, jwtDecode, TokenBlacklistModel.create,
      RefreshTokenModel.revokeToken]
  · intro hnow
    simp [AuthService.logout, JwtUtils.decodeToken, jwtDecode, TokenBlacklistModel.create,
      RefreshTokenModel.revokeToken, TokenBlacklistModel.isBlacklisted, hnow]
  · intro hlater
    simp [AuthService.logout, JwtUtils.decodeToken, jwtDecode, TokenBlacklistModel.create,
      RefreshTokenModel.revokeToken, TokenBlacklistModel.isBlacklisted,
      Nat.not_lt.mpr hlater]
    intro b hb
    simp [hfresh b hb]

/-- Witness for `logout_blacklist_until_embedded_expiry`: a token with
embedded expiry 900, blacklisted at time 10, checked at times 10 and
900, starting from the empty store. -/
theorem logout_blacklist_until_embedded_expiry_witness :
    (AuthService.logout { users := [], refreshTokens := [], blacklist := [] }
        (Jwt.signed ⟨"u1", "e@x", "alice", "r1", 0, 900, .access⟩ "your-access-secret")
        "R").blacklist =
      [{ token := Jwt.signed ⟨"u1", "e@x", "alice", "r1", 0, 900, .access⟩ "your-access-secret",
         userId := none, expiresAt := 900, reason := "logout" }] ∧
    TokenBlacklistModel.isBlacklisted
      (AuthService.logout { users := [], refreshTokens := [], blacklist := [] }
        (Jwt.signed ⟨"u1", "e@x", "alice", "r1", 0, 900, .access⟩ "your-access-secret") "R")
      (Jwt.signed ⟨"u1", "e@x", "alice", "r1", 0, 900, .access⟩ "your-access-secret") 10 =
      true ∧
    TokenBlacklistModel.isBlacklisted
      (AuthService.logout { users := [], refreshTokens := [], blacklist := [] }
        (Jwt.signed ⟨"u1", "e@x", "alice", "r1", 0, 900, .access⟩ "your-access-secret") "R")
      (Jwt.signed ⟨"u1", "e@x", "alice", "r1", 0, 900, .access⟩ "your-access-secret") 900 =
      false := by
  have h := logout_blacklist_until_embedded_expiry
    { users := [], refreshTokens := [], blacklist := [] }
    ⟨"u1", "e@x", "alice", "r1", 0, 900, .access⟩ "your-access-secret" "R" 10 900
    (by intro b hb; cases hb)
  exact ⟨h.1, h.2.1 (by decide), h.2.2 (by decide)⟩

/-- Revoking a token value marks the row that `findByToken` returns as
revoked (helper for the rotation theorem). -/
theorem find_after_revoke (l : List RefreshToken) (tv : String) (rt : RefreshToken)
    (h : l.find? (fun r => r.token == tv) = some rt) :
    (l.map fun r => if r.token == tv then { r with isRevoked := true } else r).find?
      (fun r => r.token == tv) = some { rt with isRevoked := true } := by
  induction l with
  | nil => simp at h
  | cons a l ih =>
    by_cases ha : (a.token == tv) = true
    · rw [List.find?_cons_of_pos (p := fun r : RefreshToken => r.token == tv) l ha] at h
      cases h
      rw [List.map_cons, if_pos ha]
      exact List.find?_cons_of_pos (p := fun r : RefreshToken => r.token == tv) _
        (by simpa using ha)
    · rw [List.find?_cons_of_neg (p := fun r : RefreshToken => r.token == tv) l ha] at h
      rw [List.map_cons, if_neg ha]
      exact (List.find?_cons_of_neg (p := fun r : RefreshToken => r.token == tv) _ ha).trans
        (ih h)

/-- C1: if `refreshToken(R)` succeeds (rotating `R` into a fresh token),
then a second `refreshToken(R)` call against the resulting store fails
with the revoked-token rejection (`'Invalid refresh token'`, the error
the service throws for a revoked row): the old token was revoked and the
new one created in the same operation, so the presented token can never
authorize twice. -/
theorem refresh_rotation_blocks_reuse :
    ∀ (s : Store) (tv : String) (now : Nat) (fresh : String) (resp : AuthResponse)
      (s' : Store) (now2 : Nat) (fresh2 : String),
      AuthService.refreshToken s tv now fresh = (.ok resp, s') →
      (AuthService.refreshToken s' tv now2 fresh2).fst = .error .invalidRefreshToken := by
  intro s tv now fresh resp s' now2 fresh2 h
  unfold AuthService.refreshToken at h
  split at h
  · simp at h
  · rename_i rt hfind
    split at h
    · simp at h
    · rename_i hrev
      split at h
      · simp at h
      · rename_i hexp
        split at h
        · simp at h
        · rename_i user huser
          split at h
          · simp at h
          · rename_i hact
            have hs' : s' = RefreshTokenModel.create (RefreshTokenModel.revokeToken s tv)
                { token := fresh, userId := user.id, expiresAt := now + sevenDays,
                  isRevoked := false } := by
              have := congrArg Prod.snd h
              simpa using this.symm
            have hfind2 : RefreshTokenModel.findByToken s' tv =
                some { rt with isRevoked := true } := by
              subst hs'
              unfold RefreshTokenModel.findByToken RefreshTokenModel.create
                RefreshTokenModel.revokeToken
              simp only [List.find?_append]
              rw [find_after_revoke s.refreshTokens tv rt
                (by simpa [RefreshTokenModel.findByToken] using hfind)]
              rfl
            unfold AuthService.refreshToken
            rw [hfind2]
            simp

/-- Fixture: `plainStore` extended with one live refresh token `"R"`. -/
def rtStore : Store :=
  { users := [plainUser],
    refreshTokens := [{ token := "R", userId := "u6", expiresAt := 1000, isRevoked := false }],
    blacklist := [] }

/-- Fixture: the store `refreshToken(rtStore, "R")` produces — `"R"`
revoked and the fresh token `"R2"` created. -/
def rtStoreAfter : Store :=
  { users := [plainUser],
    refreshTokens := [{ token := "R", userId := "u6", expiresAt := 1000, isRevoked := true },
                      { token := "R2", userId := "u6", expiresAt := sevenDays,
                        isRevoked := false }],
    blacklist := [] }

/-- Fixture: the response of the first `refreshToken(rtStore, "R")`. -/
def rtResp : AuthResponse :=
  { user := plainUser.sanitize,
    accessToken := JwtUtils.generateAccessToken ⟨"u6", "a@x.com", "alice", "r1"⟩ 0,
    refreshToken := "R2", expiresIn := 15 * 60, tokenType := "Bearer" }

/-- Witness for `refresh_rotation_blocks_reuse` on `rtStore`: the first
rotation succeeds and the second use of `"R"` is rejected. -/
theorem refresh_rotation_blocks_reuse_witness :
    (AuthService.refreshToken rtStoreAfter "R" 0 "R3").fst = .error .invalidRefreshToken :=
  refresh_rotation_blocks_reuse rtStore "R" 0 "R2" rtResp rtStoreAfter 0 "R3" (by decide)

/-- Fixture: a store whose blacklist holds a malformed (unverifiable)
token that has not yet reached its entry's expiry. -/
def malBlacklistStore : Store :=
  { users := [], refreshTokens := [],
    blacklist := [{ token := Jwt.malformed "garbage", userId := none, expiresAt := 100,
                    reason := "logout" }] }

/-- C2 counterexample: the gate does NOT run signature/expiry
verification first.  The token `Jwt.malformed "garbage"` fails
`verifyAccessToken`, so under the claimed order it would be rejected
with the generic verification failure before the blacklist is ever
consulted; but the gate's observable outcome is the blacklist rejection
`'Token has been revoked'`, which is only possible if the blacklist
lookup (a store access) ran — and decided — before signature
verification. -/
theorem gate_blacklist_consulted_before_signature :
    JwtUtils.verifyAccessToken (Jwt.malformed "garbage") 0 = .error "Invalid access token" ∧
    AuthMiddleware.authenticate malBlacklistStore (some (Jwt.malformed "garbage")) 0 =
      .error .tokenRevoked ∧
    AuthFailure.tokenRevoked ≠ AuthFailure.invalidOrExpired := by decide

/-- C2 amended: the gate's checks are ordered blacklist lookup first
(store access), then signature/expiry verification, then the token-type
check, then the account lookup and active check; a token failing an
earlier check is rejected with that check's distinct error without the
later checks deciding the outcome. -/
theorem gate_order_blacklist_then_signature_then_liveness :
    ∀ (s : Store) (tok : Jwt) (now : Nat),
      (TokenBlacklistModel.isBlacklisted s tok now = true →
        AuthMiddleware.authenticate s (some tok) now = .error .tokenRevoked) ∧
      (TokenBlacklistModel.isBlacklisted s tok now = false →
        JwtUtils.verifyAccessToken tok now = .error "Invalid access token" →
        AuthMiddleware.authenticate s (some tok) now = .error .invalidOrExpired) ∧
      (∀ p, TokenBlacklistModel.isBlacklisted s tok now = false →
        JwtUtils.verifyAccessToken tok now = .ok p → p.type ≠ TokenType.access →
        AuthMiddleware.authenticate s (some tok) now = .error .invalidTokenType) ∧
      (∀ p u, TokenBlacklistModel.isBlacklisted s tok now = false →
        JwtUtils.verifyAccessToken tok now = .ok p → p.type = TokenType.access →
        UserModel.findById s p.sub = some u → u.isActive = true →
        AuthMiddleware.authenticate s (some tok) now =
          .ok { id := u.id, email := u.email, username := u.username, roleId := u.roleId }) := by
  intro s tok now
  refine ⟨?_, ?_, ?_, ?_⟩
  · intro hbl
    simp [AuthMiddleware.authenticate, hbl]
  · intro hbl hver
    simp [AuthMiddleware.authenticate, hbl, hver]
  · intro p hbl hver htype
    simp [AuthMiddleware.authenticate, hbl, hver, htype]
  · intro p u hbl hver htype hfind hact
    simp [AuthMiddleware.authenticate, hbl, hver, htype, hfind, hact]

/-- Witness for `gate_order_blacklist_then_signature_then_liveness`: on
`malBlacklistStore` the blacklisted (and unverifiable) token is rejected
as revoked. -/
theorem gate_order_blacklist_first_witness :
    AuthMiddleware.authenticate malBlacklistStore (some (Jwt.malformed "garbage")) 0 =
      .error .tokenRevoked :=
  (gate_order_blacklist_then_signature_then_liveness malBlacklistStore
    (Jwt.malformed "garbage") 0).1 (by decide)
